import Mathlib

/-!
Verification of the CRM-Admin-Infra CDK stack (src/lib/admin-infra-stack.ts).

The repository declares AWS infrastructure through the CDK: an S3 web
bucket, a CloudFront distribution in front of it, and a CodePipeline with
Source, Build and Deploy stages.  The source file holds two versions of
the stack (AdminInfraStack with AdminInfraStackProps, and a second
AdminInfraStack with ReactDeploymentCICDStackProps) plus the application
entry point.

The shallow embedding below mirrors each construct call as a pure Lean
value: every structure field corresponds to a property passed to the CDK
constructor, and tokens that CDK resolves at deploy time (distribution id,
account id, ARNs) are modelled as explicit string functions.
-/

/-- The props interface shared (field for field) by AdminInfraStackProps
(first version, lines 34-46) and ReactDeploymentCICDStackProps
(second version, lines 329-341). -/
structure AdminInfraStackProps where
  environmentType : String
  branch : String
  pipelineName : String
  bucketName : String
  pipelineBucket : String
  publicAccess : Bool
  indexFile : String
  errorFile : String
  githubRepoOwner : String
  githubRepoName : String
  githubAccessToken : String
deriving DecidableEq, Repr

/-- An IAM principal as used in this stack: either the canonical user of
the origin-access identity, or the public AnyPrincipal implied by
publicReadAccess. -/
inductive Principal where
  | canonicalUser (id : String)
  | anyone
deriving DecidableEq, Repr

/-- An IAM policy statement: actions, resources and (for resource
policies) principals. -/
structure PolicyStatement where
  actions : List String
  resources : List String
  principals : List Principal
deriving DecidableEq, Repr

/-- CDK RemovalPolicy values used by the stack. -/
inductive RemovalPolicy where
  | destroy
  | retain
deriving DecidableEq, Repr

/-- The S3 bucket as configured by _createWebBucket: each field is one
property of the Bucket constructor call; resourcePolicy collects the
statements of the bucket resource policy. -/
structure Bucket where
  constructId : String
  websiteIndexDocument : String
  websiteErrorDocument : String
  publicReadAccess : Bool
  removalPolicy : RemovalPolicy
  blockPublicAccess : String
  accessControl : String
  encryption : String
  resourcePolicy : List PolicyStatement
deriving DecidableEq, Repr

/-- s3 object ARN pattern for a bucket, as Bucket.arnForObjects yields. -/
def arnForObjects (bucketId : String) (pattern : String) : String :=
  "arn:aws:s3:::" ++ bucketId ++ "/" ++ pattern

/-- The canonical user id of the OriginAccessIdentity construct named
OAI, a deploy-time token modelled as an opaque string. -/
def oaiS3CanonicalUserId : String := "oai-s3-canonical-user-id"

/-- The public-read statement that the CDK Bucket construct attaches to
the bucket resource policy when publicReadAccess is true
(Bucket.grantPublicAccess: s3:GetObject on all objects for everyone). -/
def publicReadStatement (bucketId : String) : PolicyStatement :=
  { actions := ["s3:GetObject"]
    resources := [arnForObjects bucketId "*"]
    principals := [Principal.anyone] }

/-- The method _createWebBucket (identical in both versions, lines 79-93
and 374-387): builds the web bucket from the props.  The publicAccess
flag is passed through as publicReadAccess, which per CDK semantics adds
the public-read statement to the bucket resource policy. -/
def createWebBucket (props : AdminInfraStackProps) : Bucket :=
  let b : Bucket :=
    { constructId := props.bucketName
      websiteIndexDocument := props.indexFile
      websiteErrorDocument := props.errorFile
      publicReadAccess := props.publicAccess
      removalPolicy := RemovalPolicy.destroy
      blockPublicAccess := "BLOCK_ACLS"
      accessControl := "BUCKET_OWNER_FULL_CONTROL"
      encryption := "S3_MANAGED"
      resourcePolicy := [] }
  if props.publicAccess then
    { b with resourcePolicy := [publicReadStatement b.constructId] }
  else b

/-- Bucket.addToResourcePolicy: appends a statement. -/
def Bucket.addToResourcePolicy (b : Bucket) (s : PolicyStatement) : Bucket :=
  { b with resourcePolicy := b.resourcePolicy ++ [s] }

/-- One entry of the errorResponses list of the Distribution. -/
structure ErrorResponse where
  httpStatus : Nat
  responseHttpStatus : Nat
  responsePagePath : String
  ttlSeconds : Nat
deriving DecidableEq, Repr

/-- The CloudFront distribution as configured by
_createCloudFrontDistribution: default behavior origin (the bucket id and
the OAI it is accessed through), viewer policy, root object, error
responses and price class. -/
structure Distribution where
  constructId : String
  originBucket : String
  originAccessIdentity : String
  viewerProtocolPolicy : String
  defaultRootObject : String
  errorResponses : List ErrorResponse
  priceClass : String
deriving DecidableEq, Repr

/-- The distribution id, a deploy-time token modelled as a function of
the construct id. -/
def Distribution.distributionId (d : Distribution) : String :=
  "distribution-id-of-" ++ d.constructId

/-- The statement _createCloudFrontDistribution adds to the bucket
resource policy: s3:GetObject on all objects for the OAI canonical
user (lines 97-107 and 391-401). -/
def oaiStatement (bucketId : String) : PolicyStatement :=
  { actions := ["s3:GetObject"]
    resources := [arnForObjects bucketId "*"]
    principals := [Principal.canonicalUser oaiS3CanonicalUserId] }

/-- The method _createCloudFrontDistribution (lines 95-141 and 389-433;
the two versions differ only in the construct id of the distribution,
passed here as a parameter).  Returns the bucket with the OAI statement
appended to its resource policy, and the distribution whose origin is
that bucket. -/
def createCloudFrontDistribution (distributionConstructId : String)
    (bucket : Bucket) : Bucket × Distribution :=
  let bucket2 := bucket.addToResourcePolicy (oaiStatement bucket.constructId)
  (bucket2,
    { constructId := distributionConstructId
      originBucket := bucket.constructId
      originAccessIdentity := "OAI"
      viewerProtocolPolicy := "REDIRECT_TO_HTTPS"
      defaultRootObject := "index.html"
      errorResponses :=
        [ { httpStatus := 404
            responseHttpStatus := 404
            responsePagePath := "/index.html"
            ttlSeconds := 300 }
        , { httpStatus := 403
            responseHttpStatus := 500
            responsePagePath := "/index.html"
            ttlSeconds := 300 } ]
      priceClass := "PRICE_CLASS_100" })

/-- A JSON-like value: the plain object passed to BuildSpec.fromObject is
embedded as this tree (objects keep key order). -/
inductive Jv where
  | str : String → Jv
  | arr : List Jv → Jv
  | obj : List (String × Jv) → Jv
deriving Repr

/-- Key lookup in a list of object entries. -/
def lookupEntries : List (String × Jv) → String → Option Jv
  | [], _ => none
  | (k, v) :: rest, key => if k = key then some v else lookupEntries rest key

/-- Key lookup in a Jv object (none on non-objects). -/
def Jv.lookup : Jv → String → Option Jv
  | Jv.obj kvs, key => lookupEntries kvs key
  | _, _ => none

/-- The string carried by a Jv leaf. -/
def Jv.asStr : Jv → Option String
  | Jv.str s => some s
  | _ => none

/-- The elements of a Jv array. -/
def Jv.asArr : Jv → Option (List Jv)
  | Jv.arr xs => some xs
  | _ => none

/-- The cache-invalidation shell command interpolated with the
distribution id (lines 182 and 469, identical text in both versions). -/
def invalidationCommand (distributionId : String) : String :=
  "aws cloudfront create-invalidation --distribution-id " ++ distributionId
    ++ " --paths \x27/*\x27"

/-- The object passed to BuildSpec.fromObject in the first version
(lines 167-190): install phase with a pinned nodejs runtime, build phase,
post_build phase with the invalidation command, and a top-level artifacts
declaration. -/
def buildSpecV1 (distributionId : String) : Jv :=
  Jv.obj
    [ ("version", Jv.str "0.2")
    , ("phases", Jv.obj
        [ ("install", Jv.obj
            [ ("runtime-versions", Jv.obj [("nodejs", Jv.str "latest")])
            , ("commands", Jv.arr
                [ Jv.str "echo \"installing npm dependencies\""
                , Jv.str "npm install" ]) ])
        , ("build", Jv.obj
            [ ("commands", Jv.arr
                [ Jv.str "echo \"building app\""
                , Jv.str "npm run build" ]) ])
        , ("post_build", Jv.obj
            [ ("commands", Jv.arr
                [ Jv.str "echo \"creating cloudfront invalidation\""
                , Jv.str (invalidationCommand distributionId) ]) ]) ])
    , ("artifacts", Jv.obj
        [ ("base-directory", Jv.str "dist")
        , ("files", Jv.arr [Jv.str "**/*"]) ]) ]

/-- The object passed to BuildSpec.fromObject in the second version
(lines 457-477): no runtime-versions pin, a different build echo command,
and the artifact declaration nested inside phases under the misspelled key
arfifacts. -/
def buildSpecV2 (distributionId : String) : Jv :=
  Jv.obj
    [ ("version", Jv.str "0.2")
    , ("phases", Jv.obj
        [ ("install", Jv.obj
            [ ("commands", Jv.arr
                [ Jv.str "echo \"installing npm dependencies\""
                , Jv.str "npm install" ]) ])
        , ("build", Jv.obj
            [ ("commands", Jv.arr
                [ Jv.str "echo \"building react app\""
                , Jv.str "npm run build" ]) ])
        , ("post_build", Jv.obj
            [ ("commands", Jv.arr
                [ Jv.str "echo \"creating cloudfront invalidation\""
                , Jv.str (invalidationCommand distributionId) ]) ])
        , ("arfifacts", Jv.obj
            [ ("base-directory", Jv.str "dist")
            , ("files", Jv.arr [Jv.str "**/*"]) ]) ]) ]

/-- The value object of one injected build environment variable:
convertEnvVariables wraps each dotenv value as an object with a value
field. -/
structure EnvValue where
  value : String
deriving DecidableEq, Repr

/-- The result of dotenv.config: an optional error and an optional parsed
key-value map (as an association list in file order). -/
structure DotenvConfigResult where
  error : Option String
  parsed : Option (List (String × String))
deriving DecidableEq, Repr

/-- convertEnvVariables (lines 285-292): folds the keys of the parsed map
into a map from key to an object holding the value verbatim. -/
def convertEnvVariables (env : List (String × String)) :
    List (String × EnvValue) :=
  env.map (fun kv => (kv.1, EnvValue.mk kv.2))

/-- loadEnvFile (lines 294-304): throws the dotenv error when present,
throws a fixed message when nothing was parsed, and otherwise returns the
converted variable map. -/
def loadEnvFile (result : DotenvConfigResult) :
    Except String (List (String × EnvValue)) :=
  match result.error with
  | some e => Except.error e
  | none =>
    match result.parsed with
    | some p => Except.ok (convertEnvVariables p)
    | none =>
      Except.error "Failed to load environment variables from .env file"

/-- Account id of the stack (this.account), a deploy-time token modelled
as an opaque string. -/
def stackAccount : String := "stack-account-id"

/-- ARN of a CodeBuild project (Project.projectArn), modelled as a
function of the construct id. -/
def projectArn (constructId : String) : String :=
  "arn:aws:codebuild:" ++ stackAccount ++ ":project/" ++ constructId

/-- The CodeBuild project as configured by _createBuildProject: construct
id, build spec object, build image, injected environment variables, and
the statements added to the project role by addToRolePolicy. -/
structure CodeBuildProject where
  constructId : String
  buildSpec : Jv
  buildImage : String
  environmentVariables : List (String × EnvValue)
  rolePolicies : List PolicyStatement
deriving Repr

/-- Artifacts are anonymous handles; they are modelled by numeric ids
assigned in creation order. -/
abbrev ArtifactId := Nat

/-- The cloudfront:CreateInvalidation role statement the first version
adds to the build project role (lines 199-206), scoped to the ARN of the
distribution of this stack. -/
def invalidationStatement (distribution : Distribution) : PolicyStatement :=
  { actions := ["cloudfront:CreateInvalidation"]
    resources :=
      [ "arn:aws:cloudfront::" ++ stackAccount ++ ":distribution/"
          ++ distribution.distributionId ]
    principals := [] }

/-- The codebuild self-statement both versions add to the build project
role (lines 208-213 and 483-488). -/
def codebuildSelfStatement (constructId : String) : PolicyStatement :=
  { actions := ["codebuild:StartBuild", "codebuild:BatchGetBuilds"]
    resources := [projectArn constructId]
    principals := [] }

/-- The project declared by the first version after the env file loaded:
the v1 build spec, the AMAZON_LINUX_2_5 image, the injected variables,
and the invalidation plus codebuild role statements. -/
def buildProjectV1Core (envVariables : List (String × EnvValue))
    (distribution : Distribution) : CodeBuildProject :=
  { constructId := "crm-admin-codebuild-project"
    buildSpec := buildSpecV1 distribution.distributionId
    buildImage := "AMAZON_LINUX_2_5"
    environmentVariables := envVariables
    rolePolicies :=
      [ invalidationStatement distribution
      , codebuildSelfStatement "crm-admin-codebuild-project" ] }

/-- The method _createBuildProject of the first version (lines 163-219):
loads the env file (which can throw), then declares the project. -/
def createBuildProjectV1 (dotenvResult : DotenvConfigResult)
    (distribution : Distribution) : Except String CodeBuildProject := do
  let envVariables ← loadEnvFile dotenvResult
  Except.ok (buildProjectV1Core envVariables distribution)

/-- The method _createBuildProject of the second version (lines 454-494):
no env file load, the v2 build spec, the STANDARD_5_0 image, no
environment variables, and only the codebuild statement on the role. -/
def createBuildProjectV2 (distribution : Distribution) : CodeBuildProject :=
  { constructId := "react-code-build-project"
    buildSpec := buildSpecV2 distribution.distributionId
    buildImage := "STANDARD_5_0"
    environmentVariables := []
    rolePolicies := [codebuildSelfStatement "react-code-build-project"] }

/-- The source action declared by _createSourceAction (lines 144-161 and
435-452; the two versions differ only in the action name): a GitHub
source action writing into the given output artifact. -/
structure GitHubSourceAction where
  actionName : String
  owner : String
  repo : String
  branch : String
  oauthTokenSecretId : String
  output : ArtifactId
deriving DecidableEq, Repr

/-- The build action declared by _createBuildAction (lines 221-234 and
496-508, identical in both versions): a CodeBuild action on the given
project, reading the source artifact and writing the build artifact. -/
structure CodeBuildAction where
  actionName : String
  projectConstructId : String
  input : ArtifactId
  outputs : List ArtifactId
deriving DecidableEq, Repr

/-- The deploy action declared by _createDeployAction (lines 236-244 and
510-517; the versions differ only in the action name): an S3 deploy
action reading the build artifact and publishing it to the bucket. -/
structure S3DeployAction where
  actionName : String
  input : ArtifactId
  bucketConstructId : String
deriving DecidableEq, Repr

/-- One action of a pipeline stage. -/
inductive PipelineAction where
  | source : GitHubSourceAction → PipelineAction
  | build : CodeBuildAction → PipelineAction
  | deploy : S3DeployAction → PipelineAction
deriving DecidableEq, Repr

/-- One stage of the pipeline. -/
structure PipelineStage where
  stageName : String
  actions : List PipelineAction
deriving DecidableEq, Repr

/-- The pipeline as configured by _createPipeline: construct id, name,
optional existing artifact bucket, the stage list, and the construct ids
the pipeline node explicitly depends on (node.addDependency). -/
structure Pipeline where
  constructId : String
  pipelineName : String
  artifactBucket : Option String
  stages : List PipelineStage
  dependsOn : List String
deriving DecidableEq, Repr

/-- A CfnOutput declaration. -/
structure CfnOutput where
  constructId : String
  value : String
  description : String
deriving DecidableEq, Repr

/-- The distribution domain name, a deploy-time token. -/
def Distribution.distributionDomainName (d : Distribution) : String :=
  "domain-of-" ++ d.constructId

/-- The bucket website URL, a deploy-time token. -/
def Bucket.bucketWebsiteUrl (b : Bucket) : String :=
  "website-url-of-" ++ b.constructId

/-- Everything one stack constructor declares. -/
structure StackResources where
  webBucket : Bucket
  distribution : Distribution
  sourceAction : GitHubSourceAction
  buildProject : CodeBuildProject
  buildAction : CodeBuildAction
  deployAction : S3DeployAction
  pipeline : Pipeline
  outputs : List CfnOutput
deriving Repr

/-- Builds the source action from the props (shared shape of both
versions; actionName is GitHub in the first version and GitHub_Source in
the second). -/
def createSourceAction (actionName : String) (props : AdminInfraStackProps)
    (sourceOutput : ArtifactId) : GitHubSourceAction :=
  { actionName := actionName
    owner := props.githubRepoOwner
    repo := props.githubRepoName
    branch := props.branch
    oauthTokenSecretId := props.githubAccessToken
    output := sourceOutput }

/-- Builds the CodeBuild action (identical in both versions). -/
def createBuildAction (buildProject : CodeBuildProject)
    (sourceOutput buildOutput : ArtifactId) : CodeBuildAction :=
  { actionName := "CodeBuild"
    projectConstructId := buildProject.constructId
    input := sourceOutput
    outputs := [buildOutput] }

/-- Builds the S3 deploy action (actionName is DeployToS3 in the first
version and DeploytToS3 in the second). -/
def createDeployAction (actionName : String) (buildOutput : ArtifactId)
    (bucket : Bucket) : S3DeployAction :=
  { actionName := actionName
    input := buildOutput
    bucketConstructId := bucket.constructId }

/-- The stage list built by _createPipeline (identical in both versions,
lines 256-260 and 533-537): Source, Build, Deploy in that order, one
action each. -/
def pipelineStages (sourceAction : GitHubSourceAction)
    (buildAction : CodeBuildAction) (deployAction : S3DeployAction) :
    List PipelineStage :=
  [ { stageName := "Source", actions := [PipelineAction.source sourceAction] }
  , { stageName := "Build", actions := [PipelineAction.build buildAction] }
  , { stageName := "Deploy", actions := [PipelineAction.deploy deployAction] } ]

/-- The method _createPipeline of the first version (lines 246-268):
pipeline named from the props, default artifact bucket, the three stages,
and an explicit node dependency on the bucket and the distribution. -/
def createPipelineV1 (deployAction : S3DeployAction)
    (sourceAction : GitHubSourceAction) (buildAction : CodeBuildAction)
    (props : AdminInfraStackProps) (bucket : Bucket)
    (distribution : Distribution) : Pipeline :=
  { constructId := "codepipeline"
    pipelineName := props.pipelineName
    artifactBucket := none
    stages := pipelineStages sourceAction buildAction deployAction
    dependsOn := [bucket.constructId, distribution.constructId] }

/-- The method _createPipeline of the second version (lines 519-545):
additionally reuses the existing artifact bucket named by
props.pipelineBucket. -/
def createPipelineV2 (deployAction : S3DeployAction)
    (sourceAction : GitHubSourceAction) (buildAction : CodeBuildAction)
    (props : AdminInfraStackProps) (bucket : Bucket)
    (distribution : Distribution) : Pipeline :=
  { constructId := "admincodepipeline"
    pipelineName := props.pipelineName
    artifactBucket := some props.pipelineBucket
    stages := pipelineStages sourceAction buildAction deployAction
    dependsOn := [bucket.constructId, distribution.constructId] }

/-- The constructor of the first stack version (lines 49-76).  The
dotenv result stands for what dotenv.config reads from the local settings
file; a loadEnvFile failure aborts the whole construction, so no partial
resource set is produced. -/
def adminInfraStackV1 (props : AdminInfraStackProps)
    (dotenvResult : DotenvConfigResult) : Except String StackResources := do
  let webBucket0 := createWebBucket props
  let bucketAndDistribution :=
    createCloudFrontDistribution "crm-admin-deployment-distribution" webBucket0
  let webBucket := bucketAndDistribution.1
  let distribution := bucketAndDistribution.2
  let sourceOutput : ArtifactId := 0
  let sourceAction := createSourceAction "GitHub" props sourceOutput
  let buildOutput : ArtifactId := 1
  let buildProject ← createBuildProjectV1 dotenvResult distribution
  let buildAction := createBuildAction buildProject sourceOutput buildOutput
  let deployAction := createDeployAction "DeployToS3" buildOutput webBucket
  let pipeline :=
    createPipelineV1 deployAction sourceAction buildAction props webBucket
      distribution
  Except.ok
    { webBucket := webBucket
      distribution := distribution
      sourceAction := sourceAction
      buildProject := buildProject
      buildAction := buildAction
      deployAction := deployAction
      pipeline := pipeline
      outputs :=
        [ { constructId := "cloudfront-web-url"
            value := distribution.distributionDomainName
            description := "cloudfront website url" }
        , { constructId := "s3-bucket-web-url"
            value := webBucket.bucketWebsiteUrl
            description := "s3 bucket website url" } ] }

/-- The constructor of the second stack version (lines 344-372): same
composition, different construct and action names, no env file load, the
v2 build project, and the artifact-bucket-reusing pipeline. -/
def adminInfraStackV2 (props : AdminInfraStackProps) : StackResources :=
  let webBucket0 := createWebBucket props
  let bucketAndDistribution :=
    createCloudFrontDistribution "react-deployment-distribution" webBucket0
  let webBucket := bucketAndDistribution.1
  let distribution := bucketAndDistribution.2
  let sourceOutput : ArtifactId := 0
  let sourceAction := createSourceAction "GitHub_Source" props sourceOutput
  let buildOutput : ArtifactId := 1
  let buildProject := createBuildProjectV2 distribution
  let buildAction := createBuildAction buildProject sourceOutput buildOutput
  let deployAction := createDeployAction "DeploytToS3" buildOutput webBucket
  let pipeline :=
    createPipelineV2 deployAction sourceAction buildAction props webBucket
      distribution
  { webBucket := webBucket
    distribution := distribution
    sourceAction := sourceAction
    buildProject := buildProject
    buildAction := buildAction
    deployAction := deployAction
    pipeline := pipeline
    outputs :=
      [ { constructId := "cloudfront-web-url"
          value := distribution.distributionDomainName
          description := "cloudfront website url" }
      , { constructId := "s3-bucket-url"
          value := webBucket.bucketWebsiteUrl
          description := "s3 bucket url" } ] }

/-- One per-environment configuration of the application entry point:
the isDeploy flag, the stack name, and the stack props spread into the
constructor. -/
structure EnvConfig where
  isDeploy : Bool
  stackName : String
  props : AdminInfraStackProps
deriving DecidableEq, Repr

/-- The application entry point (bin script, lines 566-576): iterates
over the environment configurations and instantiates a stack exactly for
those whose isDeploy flag is true, recording stack name, props and the
generated description. -/
def appStacks (envConfigs : List EnvConfig) :
    List (String × AdminInfraStackProps × String) :=
  envConfigs.foldl
    (fun acc c =>
      if c.isDeploy then
        acc ++ [(c.stackName, c.props,
          "CRM Admin Infra Stack for " ++ c.props.environmentType)]
      else acc)
    []

/-- Commands of the build phase of a build spec object. -/
def buildPhaseCommands (spec : Jv) : Option Jv :=
  (spec.lookup "phases").bind
    (fun ph => (ph.lookup "build").bind (fun b => b.lookup "commands"))

/-- First command string of the build phase of a build spec object. -/
def firstBuildCommand (spec : Jv) : Option String :=
  (buildPhaseCommands spec).bind
    (fun c => c.asArr.bind (fun xs => xs.head?.bind Jv.asStr))

/-- Commands of the post_build phase of a build spec object. -/
def postBuildCommands (spec : Jv) : Option Jv :=
  (spec.lookup "phases").bind
    (fun ph => (ph.lookup "post_build").bind (fun b => b.lookup "commands"))

/-- The runtime-versions entry of the install phase of a build spec. -/
def installRuntimeVersions (spec : Jv) : Option Jv :=
  (spec.lookup "phases").bind
    (fun ph => (ph.lookup "install").bind
      (fun i => i.lookup "runtime-versions"))

/-- The resource set the first stack constructor produces when the env
file loads successfully; used only to characterize adminInfraStackV1. -/
def v1Success (props : AdminInfraStackProps)
    (envVariables : List (String × EnvValue)) : StackResources :=
  let bucketAndDistribution :=
    createCloudFrontDistribution "crm-admin-deployment-distribution"
      (createWebBucket props)
  let webBucket := bucketAndDistribution.1
  let distribution := bucketAndDistribution.2
  let sourceAction := createSourceAction "GitHub" props 0
  let buildProject := buildProjectV1Core envVariables distribution
  let buildAction := createBuildAction buildProject 0 1
  let deployAction := createDeployAction "DeployToS3" 1 webBucket
  { webBucket := webBucket
    distribution := distribution
    sourceAction := sourceAction
    buildProject := buildProject
    buildAction := buildAction
    deployAction := deployAction
    pipeline :=
      createPipelineV1 deployAction sourceAction buildAction props webBucket
        distribution
    outputs :=
      [ { constructId := "cloudfront-web-url"
          value := distribution.distributionDomainName
          description := "cloudfront website url" }
      , { constructId := "s3-bucket-web-url"
          value := webBucket.bucketWebsiteUrl
          description := "s3 bucket website url" } ] }

/-- A sample stack configuration used to instantiate the theorems. -/
def sampleProps : AdminInfraStackProps :=
  { environmentType := "dev"
    branch := "main"
    pipelineName := "crm-admin-pipeline"
    bucketName := "crm-admin-bucket"
    pipelineBucket := "crm-admin-artifacts"
    publicAccess := false
    indexFile := "index.html"
    errorFile := "error.html"
    githubRepoOwner := "miguel-merlin"
    githubRepoName := "CRM-Admin"
    githubAccessToken := "github-access-token" }

/-- The sample configuration with the publicAccess flag set. -/
def samplePropsPublic : AdminInfraStackProps :=
  { sampleProps with publicAccess := true }

/-- A sample successful dotenv result with an empty parsed map. -/
def sampleDotenvEmpty : DotenvConfigResult :=
  { error := none, parsed := some [] }

/-- Characterization of the first stack constructor on a successful env
load: it returns exactly the v1Success resource set. -/
theorem adminInfraStackV1_ok (props : AdminInfraStackProps)
    (r : DotenvConfigResult) (env : List (String × EnvValue))
    (h : loadEnvFile r = Except.ok env) :
    adminInfraStackV1 props r = Except.ok (v1Success props env) := by
  unfold adminInfraStackV1 createBuildProjectV1
  rw [h]
  rfl

/-- Characterization of the first stack constructor on a failed env
load: the whole construction aborts with that error. -/
theorem adminInfraStackV1_err (props : AdminInfraStackProps)
    (r : DotenvConfigResult) (e : String)
    (h : loadEnvFile r = Except.error e) :
    adminInfraStackV1 props r = Except.error e := by
  unfold adminInfraStackV1 createBuildProjectV1
  rw [h]
  rfl

/-- Inversion for the first stack constructor: a successful construction
comes from a successful env load and yields the v1Success resources. -/
theorem adminInfraStackV1_ok_inv (props : AdminInfraStackProps)
    (r : DotenvConfigResult) (res : StackResources)
    (h : adminInfraStackV1 props r = Except.ok res) :
    ∃ env, loadEnvFile r = Except.ok env ∧ res = v1Success props env := by
  cases hl : loadEnvFile r with
  | error e =>
    rw [adminInfraStackV1_err props r e hl] at h
    cases h
  | ok env =>
    rw [adminInfraStackV1_ok props r env hl] at h
    injection h with h
    exact ⟨env, rfl, h.symm⟩

/-- The web bucket spelled out: every field explicit, the resource policy
holding the public-read statement exactly when the flag is set. -/
theorem createWebBucket_eq (props : AdminInfraStackProps) :
    createWebBucket props =
      { constructId := props.bucketName
        websiteIndexDocument := props.indexFile
        websiteErrorDocument := props.errorFile
        publicReadAccess := props.publicAccess
        removalPolicy := RemovalPolicy.destroy
        blockPublicAccess := "BLOCK_ACLS"
        accessControl := "BUCKET_OWNER_FULL_CONTROL"
        encryption := "S3_MANAGED"
        resourcePolicy :=
          if props.publicAccess then [publicReadStatement props.bucketName]
          else [] } := by
  by_cases hp : props.publicAccess <;> simp [createWebBucket, hp]

/-- C4: loadEnvFile throws exactly when dotenv reports an error or yields
no parsed map, and otherwise returns the converted variable map; a
failure aborts the whole first-version stack construction with that same
error, so no partial resource set is produced. -/
theorem c4_env_file_failure_aborts (props : AdminInfraStackProps)
    (r : DotenvConfigResult) :
    (∀ e, r.error = some e →
      loadEnvFile r = Except.error e ∧
      adminInfraStackV1 props r = Except.error e) ∧
    (r.error = none → r.parsed = none →
      loadEnvFile r =
        Except.error "Failed to load environment variables from .env file" ∧
      adminInfraStackV1 props r =
        Except.error "Failed to load environment variables from .env file") ∧
    (∀ p, r.error = none → r.parsed = some p →
      loadEnvFile r = Except.ok (convertEnvVariables p)) := by
  refine ⟨?_, ?_, ?_⟩
  · intro e he
    have hl : loadEnvFile r = Except.error e := by simp [loadEnvFile, he]
    exact ⟨hl, adminInfraStackV1_err props r e hl⟩
  · intro he hp
    have hl : loadEnvFile r =
        Except.error "Failed to load environment variables from .env file" := by
      simp [loadEnvFile, he, hp]
    exact ⟨hl, adminInfraStackV1_err props r _ hl⟩
  · intro p he hp
    simp [loadEnvFile, he, hp]

/-- Instance of C4: a missing settings file (dotenv ENOENT error) makes
the first-version construction abort with that error. -/
theorem c4_env_file_failure_aborts_witness :
    loadEnvFile { error := some "ENOENT", parsed := none } =
      Except.error "ENOENT" ∧
    adminInfraStackV1 sampleProps { error := some "ENOENT", parsed := none } =
      Except.error "ENOENT" :=
  (c4_env_file_failure_aborts sampleProps
    { error := some "ENOENT", parsed := none }).1 "ENOENT" rfl

/-- C7: convertEnvVariables keeps exactly the keys of the parsed settings
map, wraps every value verbatim, produces nothing else, and the first
stack version injects exactly this converted map into the build project
environment. -/
theorem c7_env_round_trip (env : List (String × String))
    (props : AdminInfraStackProps) (r : DotenvConfigResult)
    (res : StackResources) :
    ((convertEnvVariables env).map Prod.fst = env.map Prod.fst) ∧
    (∀ k v, (k, v) ∈ env → (k, EnvValue.mk v) ∈ convertEnvVariables env) ∧
    (∀ kv ∈ convertEnvVariables env,
      ∃ kv0 ∈ env, kv = (kv0.1, EnvValue.mk kv0.2)) ∧
    (r.error = none → r.parsed = some env →
      adminInfraStackV1 props r = Except.ok res →
      res.buildProject.environmentVariables = convertEnvVariables env) := by
  refine ⟨?_, ?_, ?_, ?_⟩
  · simp [convertEnvVariables, List.map_map, Function.comp]
  · intro k v hkv
    exact List.mem_map.2 ⟨(k, v), hkv, rfl⟩
  · intro kv hkv
    rcases List.mem_map.1 hkv with ⟨kv0, h0, rfl⟩
    exact ⟨kv0, h0, rfl⟩
  · intro he hp hok
    have hl : loadEnvFile r = Except.ok (convertEnvVariables env) := by
      simp [loadEnvFile, he, hp]
    rw [adminInfraStackV1_ok props r _ hl] at hok
    injection hok with hok
    rw [← hok]
    rfl

/-- Instance of C7: a one-entry settings map is injected verbatim. -/
theorem c7_env_round_trip_witness :
    ("API_KEY", EnvValue.mk "k-123") ∈
      convertEnvVariables [("API_KEY", "k-123")] ∧
    (v1Success sampleProps
        (convertEnvVariables [("API_KEY", "k-123")])).buildProject.environmentVariables =
      convertEnvVariables [("API_KEY", "k-123")] :=
  ⟨(c7_env_round_trip [("API_KEY", "k-123")] sampleProps
      { error := none, parsed := some [("API_KEY", "k-123")] }
      (v1Success sampleProps (convertEnvVariables [("API_KEY", "k-123")]))).2.1
      "API_KEY" "k-123" (by simp),
   (c7_env_round_trip [("API_KEY", "k-123")] sampleProps
      { error := none, parsed := some [("API_KEY", "k-123")] }
      (v1Success sampleProps (convertEnvVariables [("API_KEY", "k-123")]))).2.2.2
      rfl rfl rfl⟩

/-- The entry point fold, generalized over the accumulator. -/
theorem appStacks_foldl (cs : List EnvConfig)
    (acc : List (String × AdminInfraStackProps × String)) :
    cs.foldl
      (fun acc c =>
        if c.isDeploy then
          acc ++ [(c.stackName, c.props,
            "CRM Admin Infra Stack for " ++ c.props.environmentType)]
        else acc)
      acc
      = acc ++ (cs.filter (fun c => c.isDeploy)).map
          (fun c => (c.stackName, c.props,
            "CRM Admin Infra Stack for " ++ c.props.environmentType)) := by
  induction cs generalizing acc with
  | nil => simp
  | cons c t ih =>
    by_cases hc : c.isDeploy <;>
      simp [List.foldl_cons, List.filter_cons, hc, ih]

/-- C8: the entry point instantiates a stack exactly for the environment
configurations whose isDeploy flag is true, in order; a configuration
with isDeploy false contributes no stack. -/
theorem c8_entry_point_deploy_flag (envConfigs : List EnvConfig) :
    appStacks envConfigs =
      (envConfigs.filter (fun c => c.isDeploy)).map
        (fun c => (c.stackName, c.props,
          "CRM Admin Infra Stack for " ++ c.props.environmentType)) := by
  have h := appStacks_foldl envConfigs []
  simpa [appStacks] using h

/-- C10: the web bucket carries RemovalPolicy.DESTROY in both stack
versions, for every input configuration. -/
theorem c10_removal_policy_destroy (props : AdminInfraStackProps) :
    (createWebBucket props).removalPolicy = RemovalPolicy.destroy ∧
    (adminInfraStackV2 props).webBucket.removalPolicy =
      RemovalPolicy.destroy ∧
    (∀ r res, adminInfraStackV1 props r = Except.ok res →
      res.webBucket.removalPolicy = RemovalPolicy.destroy) := by
  refine ⟨?_, ?_, ?_⟩
  · simp [createWebBucket_eq]
  · simp [adminInfraStackV2, createCloudFrontDistribution,
      Bucket.addToResourcePolicy, createWebBucket_eq]
  · intro r res h
    obtain ⟨env, _, rfl⟩ := adminInfraStackV1_ok_inv props r res h
    simp [v1Success, createCloudFrontDistribution,
      Bucket.addToResourcePolicy, createWebBucket_eq]

/-- Instance of C10 at the sample configuration, with the first version
constructed from an empty settings map. -/
theorem c10_removal_policy_destroy_witness :
    (v1Success sampleProps []).webBucket.removalPolicy =
      RemovalPolicy.destroy :=
  (c10_removal_policy_destroy sampleProps).2.2 sampleDotenvEmpty
    (v1Success sampleProps []) rfl

/-- C3: in both stack versions the distribution error-response list has,
for each of the HTTP statuses 404 and 403, an entry whose
responsePagePath is the root document /index.html. -/
theorem c3_error_responses_root_document (props : AdminInfraStackProps)
    (r : DotenvConfigResult) (res : StackResources)
    (h : adminInfraStackV1 props r = Except.ok res) :
    ((∃ e ∈ res.distribution.errorResponses,
        e.httpStatus = 404 ∧ e.responsePagePath = "/index.html") ∧
     (∃ e ∈ res.distribution.errorResponses,
        e.httpStatus = 403 ∧ e.responsePagePath = "/index.html")) ∧
    ((∃ e ∈ (adminInfraStackV2 props).distribution.errorResponses,
        e.httpStatus = 404 ∧ e.responsePagePath = "/index.html") ∧
     (∃ e ∈ (adminInfraStackV2 props).distribution.errorResponses,
        e.httpStatus = 403 ∧ e.responsePagePath = "/index.html")) := by
  obtain ⟨env, _, rfl⟩ := adminInfraStackV1_ok_inv props r res h
  refine ⟨⟨?_, ?_⟩, ⟨?_, ?_⟩⟩ <;>
    simp [v1Success, adminInfraStackV2, createCloudFrontDistribution]

/-- Instance of C3 at the sample configuration. -/
theorem c3_error_responses_root_document_witness :
    ∃ e ∈ (v1Success sampleProps []).distribution.errorResponses,
      e.httpStatus = 404 ∧ e.responsePagePath = "/index.html" :=
  (c3_error_responses_root_document sampleProps sampleDotenvEmpty
    (v1Success sampleProps []) rfl).1.1

/-- C5: in both stack versions the pipeline is exactly the three stages
Source, Build, Deploy in order, the source output artifact is the build
input, the build output artifact is the deploy input, and the deploy
action targets the web bucket. -/
theorem c5_pipeline_stage_wiring (props : AdminInfraStackProps)
    (r : DotenvConfigResult) (res : StackResources)
    (h : adminInfraStackV1 props r = Except.ok res) :
    (res.pipeline.stages =
      [ { stageName := "Source"
          actions := [PipelineAction.source res.sourceAction] }
      , { stageName := "Build"
          actions := [PipelineAction.build res.buildAction] }
      , { stageName := "Deploy"
          actions := [PipelineAction.deploy res.deployAction] } ] ∧
     res.buildAction.input = res.sourceAction.output ∧
     res.buildAction.outputs = [res.deployAction.input] ∧
     res.deployAction.bucketConstructId = res.webBucket.constructId) ∧
    ((adminInfraStackV2 props).pipeline.stages =
      [ { stageName := "Source"
          actions :=
            [PipelineAction.source (adminInfraStackV2 props).sourceAction] }
      , { stageName := "Build"
          actions :=
            [PipelineAction.build (adminInfraStackV2 props).buildAction] }
      , { stageName := "Deploy"
          actions :=
            [PipelineAction.deploy (adminInfraStackV2 props).deployAction] } ] ∧
     (adminInfraStackV2 props).buildAction.input =
       (adminInfraStackV2 props).sourceAction.output ∧
     (adminInfraStackV2 props).buildAction.outputs =
       [(adminInfraStackV2 props).deployAction.input] ∧
     (adminInfraStackV2 props).deployAction.bucketConstructId =
       (adminInfraStackV2 props).webBucket.constructId) := by
  obtain ⟨env, _, rfl⟩ := adminInfraStackV1_ok_inv props r res h
  exact ⟨⟨rfl, rfl, rfl, rfl⟩, ⟨rfl, rfl, rfl, rfl⟩⟩

/-- Instance of C5 at the sample configuration. -/
theorem c5_pipeline_stage_wiring_witness :
    (v1Success sampleProps []).buildAction.input =
      (v1Success sampleProps []).sourceAction.output :=
  (c5_pipeline_stage_wiring sampleProps sampleDotenvEmpty
    (v1Success sampleProps []) rfl).1.2.1

/-- C6: in both stack versions the distribution origin is the web bucket
and the pipeline node declares an explicit dependency on both the bucket
and the distribution. -/
theorem c6_dependency_consistency (props : AdminInfraStackProps)
    (r : DotenvConfigResult) (res : StackResources)
    (h : adminInfraStackV1 props r = Except.ok res) :
    (res.distribution.originBucket = res.webBucket.constructId ∧
     res.pipeline.dependsOn =
       [res.webBucket.constructId, res.distribution.constructId]) ∧
    ((adminInfraStackV2 props).distribution.originBucket =
       (adminInfraStackV2 props).webBucket.constructId ∧
     (adminInfraStackV2 props).pipeline.dependsOn =
       [(adminInfraStackV2 props).webBucket.constructId,
        (adminInfraStackV2 props).distribution.constructId]) := by
  obtain ⟨env, _, rfl⟩ := adminInfraStackV1_ok_inv props r res h
  exact ⟨⟨rfl, rfl⟩, ⟨rfl, rfl⟩⟩

/-- Instance of C6 at the sample configuration. -/
theorem c6_dependency_consistency_witness :
    (v1Success sampleProps []).pipeline.dependsOn =
      [(v1Success sampleProps []).webBucket.constructId,
       (v1Success sampleProps []).distribution.constructId] :=
  (c6_dependency_consistency sampleProps sampleDotenvEmpty
    (v1Success sampleProps []) rfl).1.2

/-- C9: the first version grants cloudfront:CreateInvalidation scoped to
exactly the ARN of the distribution of this stack and no other role
statement carries that action; the second version grants no
CreateInvalidation at all even though its build spec still issues the
invalidation command in its post_build phase. -/
theorem c9_invalidation_permission (props : AdminInfraStackProps)
    (r : DotenvConfigResult) (res : StackResources)
    (h : adminInfraStackV1 props r = Except.ok res) :
    (invalidationStatement res.distribution ∈
      res.buildProject.rolePolicies) ∧
    ((invalidationStatement res.distribution).resources =
      [ "arn:aws:cloudfront::" ++ stackAccount ++ ":distribution/"
          ++ res.distribution.distributionId ]) ∧
    (∀ s ∈ res.buildProject.rolePolicies,
      "cloudfront:CreateInvalidation" ∈ s.actions →
        s = invalidationStatement res.distribution) ∧
    (∀ s ∈ (adminInfraStackV2 props).buildProject.rolePolicies,
      "cloudfront:CreateInvalidation" ∉ s.actions) ∧
    (postBuildCommands (adminInfraStackV2 props).buildProject.buildSpec =
      some (Jv.arr
        [ Jv.str "echo \"creating cloudfront invalidation\""
        , Jv.str (invalidationCommand
            (adminInfraStackV2 props).distribution.distributionId) ])) := by
  obtain ⟨env, _, rfl⟩ := adminInfraStackV1_ok_inv props r res h
  refine ⟨?_, rfl, ?_, ?_, rfl⟩
  · simp [v1Success, buildProjectV1Core]
  · intro s hs hact
    have hs2 : s = invalidationStatement
        (v1Success props env).distribution ∨
        s = codebuildSelfStatement "crm-admin-codebuild-project" := by
      simpa [v1Success, buildProjectV1Core] using hs
    rcases hs2 with h1 | h2
    · exact h1
    · exfalso
      rw [h2] at hact
      simp [codebuildSelfStatement] at hact
  · intro s hs hact
    have hs2 : s = codebuildSelfStatement "react-code-build-project" := by
      simpa [adminInfraStackV2, createBuildProjectV2] using hs
    rw [hs2] at hact
    simp [codebuildSelfStatement] at hact

/-- Instance of C9 at the sample configuration: the invalidation
statement is on the first-version project role. -/
theorem c9_invalidation_permission_witness :
    invalidationStatement (v1Success sampleProps []).distribution ∈
      (v1Success sampleProps []).buildProject.rolePolicies :=
  (c9_invalidation_permission sampleProps sampleDotenvEmpty
    (v1Success sampleProps []) rfl).1

/-- C1 fails as stated: the publicAccess flag is passed through to
publicReadAccess, so with the flag set the web bucket resource policy of
the first-version stack at the sample configuration also grants
s3:GetObject to everyone, not only to the OAI principal. -/
theorem c1_public_access_counterexample :
    adminInfraStackV1 samplePropsPublic sampleDotenvEmpty =
      Except.ok (v1Success samplePropsPublic []) ∧
    publicReadStatement "crm-admin-bucket" ∈
      (v1Success samplePropsPublic []).webBucket.resourcePolicy ∧
    ¬ (∀ s ∈ (v1Success samplePropsPublic []).webBucket.resourcePolicy,
        s.principals = [Principal.canonicalUser oaiS3CanonicalUserId]) := by
  refine ⟨rfl, ?_, ?_⟩
  · decide
  · decide

/-- C1 amended: in both versions the web bucket grants object reads to
the OAI principal; when publicAccess is false this is the only statement
of the bucket resource policy, and when publicAccess is true the bucket
additionally grants public object reads to everyone. -/
theorem c1_bucket_oai_grant (props : AdminInfraStackProps)
    (r : DotenvConfigResult) (res : StackResources)
    (h : adminInfraStackV1 props r = Except.ok res) :
    oaiStatement props.bucketName ∈ res.webBucket.resourcePolicy ∧
    (props.publicAccess = false →
      res.webBucket.resourcePolicy = [oaiStatement props.bucketName]) ∧
    (props.publicAccess = true →
      res.webBucket.resourcePolicy =
        [publicReadStatement props.bucketName,
         oaiStatement props.bucketName]) ∧
    (adminInfraStackV2 props).webBucket = res.webBucket := by
  obtain ⟨env, _, rfl⟩ := adminInfraStackV1_ok_inv props r res h
  have hb : (v1Success props env).webBucket.resourcePolicy =
      (if props.publicAccess then [publicReadStatement props.bucketName]
       else []) ++ [oaiStatement props.bucketName] := by
    simp [v1Success, createCloudFrontDistribution,
      Bucket.addToResourcePolicy, createWebBucket_eq]
  refine ⟨?_, ?_, ?_, rfl⟩
  · rw [hb]; simp
  · intro hp; simp [hb, hp]
  · intro hp; simp [hb, hp]

/-- Instance of amended C1: with the flag unset, the sample bucket policy
is exactly the single OAI read statement. -/
theorem c1_bucket_oai_grant_witness :
    (v1Success sampleProps []).webBucket.resourcePolicy =
      [oaiStatement sampleProps.bucketName] :=
  (c1_bucket_oai_grant sampleProps sampleDotenvEmpty
    (v1Success sampleProps []) rfl).2.1 rfl

/-- C2 fails as stated: even with identical distribution ids the two
build specs are not identical (the build echo command differs, and the
artifact declaration sits at top level in the first version but is
missing there in the second), and the role policies differ beyond the
three named configuration differences (the first version carries an
extra CreateInvalidation statement). -/
theorem c2_build_spec_counterexample :
    adminInfraStackV1 sampleProps sampleDotenvEmpty =
      Except.ok (v1Success sampleProps []) ∧
    firstBuildCommand (v1Success sampleProps []).buildProject.buildSpec ≠
      firstBuildCommand
        (adminInfraStackV2 sampleProps).buildProject.buildSpec ∧
    ((v1Success sampleProps []).buildProject.buildSpec.lookup
      "artifacts").isSome = true ∧
    (adminInfraStackV2 sampleProps).buildProject.buildSpec.lookup
      "artifacts" = none ∧
    (v1Success sampleProps []).buildProject.rolePolicies.map
        PolicyStatement.actions ≠
      (adminInfraStackV2 sampleProps).buildProject.rolePolicies.map
        PolicyStatement.actions := by
  refine ⟨rfl, ?_, rfl, rfl, ?_⟩
  · decide
  · decide

/-- C2 amended: the two versions share the bucket, the distribution
configuration (up to construct naming), the stage names and the pipeline
name, and differ in the build image, the artifact-bucket reuse and the
environment-variable injection; beyond those, the build specs differ
(build echo command, runtime-versions pin, placement of the artifact
declaration) and the first version carries an extra CreateInvalidation
role statement. -/
theorem c2_versions_differences (props : AdminInfraStackProps)
    (r : DotenvConfigResult) (env : List (String × EnvValue))
    (res : StackResources)
    (h1 : loadEnvFile r = Except.ok env)
    (h2 : adminInfraStackV1 props r = Except.ok res) :
    (res.webBucket = (adminInfraStackV2 props).webBucket) ∧
    (res.distribution.originBucket =
       (adminInfraStackV2 props).distribution.originBucket ∧
     res.distribution.viewerProtocolPolicy =
       (adminInfraStackV2 props).distribution.viewerProtocolPolicy ∧
     res.distribution.defaultRootObject =
       (adminInfraStackV2 props).distribution.defaultRootObject ∧
     res.distribution.errorResponses =
       (adminInfraStackV2 props).distribution.errorResponses ∧
     res.distribution.priceClass =
       (adminInfraStackV2 props).distribution.priceClass) ∧
    (res.pipeline.stages.map PipelineStage.stageName =
      (adminInfraStackV2 props).pipeline.stages.map
        PipelineStage.stageName) ∧
    (res.pipeline.pipelineName =
      (adminInfraStackV2 props).pipeline.pipelineName) ∧
    (res.buildProject.buildImage = "AMAZON_LINUX_2_5" ∧
     (adminInfraStackV2 props).buildProject.buildImage = "STANDARD_5_0") ∧
    (res.pipeline.artifactBucket = none ∧
     (adminInfraStackV2 props).pipeline.artifactBucket =
       some props.pipelineBucket) ∧
    (res.buildProject.environmentVariables = env ∧
     (adminInfraStackV2 props).buildProject.environmentVariables = []) ∧
    (firstBuildCommand res.buildProject.buildSpec =
       some "echo \"building app\"" ∧
     firstBuildCommand (adminInfraStackV2 props).buildProject.buildSpec =
       some "echo \"building react app\"") ∧
    ((installRuntimeVersions res.buildProject.buildSpec).isSome = true ∧
     installRuntimeVersions
       (adminInfraStackV2 props).buildProject.buildSpec = none) ∧
    ((res.buildProject.buildSpec.lookup "artifacts").isSome = true ∧
     (adminInfraStackV2 props).buildProject.buildSpec.lookup "artifacts" =
       none) ∧
    (res.buildProject.rolePolicies.map PolicyStatement.actions =
       [ ["cloudfront:CreateInvalidation"]
       , ["codebuild:StartBuild", "codebuild:BatchGetBuilds"] ] ∧
     (adminInfraStackV2 props).buildProject.rolePolicies.map
         PolicyStatement.actions =
       [["codebuild:StartBuild", "codebuild:BatchGetBuilds"]]) := by
  obtain ⟨env2, hl, rfl⟩ := adminInfraStackV1_ok_inv props r res h2
  rw [h1] at hl
  injection hl with hl
  subst hl
  exact ⟨rfl, ⟨rfl, rfl, rfl, rfl, rfl⟩, rfl, rfl, ⟨rfl, rfl⟩,
    ⟨rfl, rfl⟩, ⟨rfl, rfl⟩, ⟨rfl, rfl⟩, ⟨rfl, rfl⟩, ⟨rfl, rfl⟩,
    ⟨rfl, rfl⟩⟩

/-- Instance of amended C2: at the sample configuration the two versions
declare the same web bucket. -/
theorem c2_versions_differences_witness :
    (v1Success sampleProps []).webBucket =
      (adminInfraStackV2 sampleProps).webBucket :=
  (c2_versions_differences sampleProps sampleDotenvEmpty []
    (v1Success sampleProps []) rfl rfl).1
